import Mathlib

/-!
Verification of the trailing-stop and order-orchestration engine of the
`testdelta99` trading bot.  Prices, sizes and profits are modelled as
rationals (`ℚ`); every arithmetic operation the code performs on them
(addition, subtraction, halving, `max`/`min`) is exact on the binary floats
the Python code uses for the magnitudes involved, so `ℚ` is a faithful
carrier.  Python dictionaries keyed by position id are modelled as total
functions from `ℕ`; `dict.get(k, d)` becomes function application with the
default baked in, and `dict.get(k)` becomes an `Option`-valued function.
A field whose `float(..)` conversion may raise is modelled as `Option ℚ`
(`none` = the conversion raised).

The file is laid out as definitions (the embedding of the code), then
helper lemmas, then one theorem per claim.
-/

namespace DeltaBot

/-- The rule tags returned by `ProfitTrailing.update_trailing_stop` and
inspected by `ProfitTrailing.book_profit` (src/profit_trailing.py).
`dynamic` and `partialBooking` appear only in `book_profit`'s dispatch
(lines 206 and 219). -/
inductive Rule where
  | fixedStop
  | lock50
  | dynamic
  | partialBooking
deriving DecidableEq

/-- A position as consumed by the trailing engine: the id used as dictionary
key, the parsed entry price (`none` models `float(entry)` raising, lines
101-104 of src/profit_trailing.py) and the parsed size (`none` models
`float(size)` raising, after which the code continues with `size = 0.0`,
lines 108-111). -/
structure Position where
  id : Nat
  entry : Option ℚ
  size : Option ℚ
deriving DecidableEq

/-- The size value the code works with: a failed parse is replaced by `0.0`
(src/profit_trailing.py lines 107-111). -/
def Position.sizeVal (p : Position) : ℚ := p.size.getD 0

/-- The mutable per-position state of `ProfitTrailing`:
`position_max_profit` (read with `.get(order_id, 0)`, so absent = `0`;
src/profit_trailing.py line 122) and `position_trailing_stop` (read with
`.get(order_id)`, absent = `None`; line 133). -/
structure PTState where
  maxProfit : Nat → ℚ
  trailStop : Nat → Option ℚ

/-- The state of a freshly constructed `ProfitTrailing` instance: both
dictionaries empty. -/
def initState : PTState := ⟨fun _ => 0, fun _ => none⟩

/-- Result of `update_trailing_stop`: the state after the call together with
the returned triple `(new_trailing_stop, profit_ratio, rule)`.  The Python
code returns either `(None, None, None)` (entry unparsable) or a triple
with all three components set, which `Option (ℚ × ℚ × Rule)` captures. -/
structure UpdateResult where
  state : PTState
  result : Option (ℚ × ℚ × Rule)

/-- The stop component of the returned triple. -/
def UpdateResult.stop (r : UpdateResult) : Option ℚ := r.result.map fun t => t.1

/-- The rule component of the returned triple. -/
def UpdateResult.rule (r : UpdateResult) : Option Rule := r.result.map fun t => t.2.2

/-- `ProfitTrailing.update_trailing_stop` (src/profit_trailing.py lines
82-164), translated clause by clause:

* entry parse failure returns `(None, None, None)` without touching state;
* `current_profit = live - entry` for `size > 0`, else `entry - live`;
* `position_max_profit[id] = max(prev, current_profit)` with default `0`;
* if `new_max > 1000 and current_profit > 0`: candidate
  `entry ± new_max/2`, rule `lock_50`, ratio `new_max/entry`;
* else candidate `entry ∓ 500`, rule `fixed_stop`, ratio
  `current_profit/entry`;
* in both branches the stored stop, when present, is tightened with
  `max` (long) / `min` (short) and written back. -/
def update_trailing_stop (st : PTState) (pos : Position) (live : ℚ) :
    UpdateResult :=
  match pos.entry with
  | none => ⟨st, none⟩
  | some entry =>
    let size := pos.sizeVal
    let currentProfit := if size > 0 then live - entry else entry - live
    let prevMax := st.maxProfit pos.id
    let newMax := max prevMax currentProfit
    let st1 : PTState :=
      ⟨fun i => if i = pos.id then newMax else st.maxProfit i, st.trailStop⟩
    if newMax > 1000 ∧ currentProfit > 0 then
      let lockSl := if size > 0 then entry + newMax / 2 else entry - newMax / 2
      let newTrail :=
        match st1.trailStop pos.id with
        | some s => if size > 0 then max s lockSl else min s lockSl
        | none => lockSl
      let st2 : PTState :=
        ⟨st1.maxProfit, fun i => if i = pos.id then some newTrail else st1.trailStop i⟩
      ⟨st2, some (newTrail, newMax / entry, Rule.lock50)⟩
    else
      let defaultSl := if size > 0 then entry - 500 else entry + 500
      let newTrail :=
        match st1.trailStop pos.id with
        | some s => if size > 0 then max s defaultSl else min s defaultSl
        | none => defaultSl
      let st2 : PTState :=
        ⟨st1.maxProfit, fun i => if i = pos.id then some newTrail else st1.trailStop i⟩
      ⟨st2, some (newTrail, currentProfit / entry, Rule.fixedStop)⟩

/-- `self.position_trailing_stop.clear()`, performed in `ProfitTrailing.track`
whenever a positions refresh (or the cached snapshot) shows no open
positions (src/profit_trailing.py lines 266-267 and 278).  Note that
`position_max_profit` is not touched there. -/
def clearTrailing (st : PTState) : PTState := ⟨st.maxProfit, fun _ => none⟩

/-- `ProfitTrailing.compute_profit_pct` (src/profit_trailing.py lines 50-67):
`None` when the entry is unparsable, else the signed relative profit. -/
def compute_profit_pct (pos : Position) (live : ℚ) : Option ℚ :=
  match pos.entry with
  | none => none
  | some entry =>
    if pos.sizeVal > 0 then some ((live - entry) / entry)
    else some ((entry - live) / entry)

/-- `ProfitTrailing.compute_raw_profit` (src/profit_trailing.py lines
171-188): `None` when the entry is unparsable, else the profit in points
scaled by the position size. -/
def compute_raw_profit (pos : Position) (live : ℚ) : Option ℚ :=
  match pos.entry with
  | none => none
  | some entry =>
    if pos.sizeVal > 0 then some ((live - entry) * pos.sizeVal)
    else some ((entry - live) * |pos.sizeVal|)

/-- Python's `round(x, 2)`.  (Python rounds float ties to even; `round` here
rounds ties up.  No claim depends on tie behaviour: rounding only feeds the
display-change check.) -/
def round2 (x : ℚ) : ℚ := ((round (x * 100) : ℤ) : ℚ) / 100

/-- Order side, lower-cased (the code lower-cases side strings before every
comparison, so an inductive side is an exact model). -/
inductive Side where
  | buy
  | sell
deriving DecidableEq

/-- One call to `TradeManager.place_market_order` as issued by the trailing
engine: the positional and keyword arguments that describe the requested
market order (src/profit_trailing.py lines 208-216). -/
structure OrderRequest where
  symbol : String
  side : Side
  amount : ℚ
  tif : String
  force : Bool
deriving DecidableEq

/-- Result of `ProfitTrailing.book_profit`: the engine state afterwards, the
market close orders it requested, the `attach_bracket_to_order` calls it made
(order id and new stop price), and its Boolean return value. -/
structure BookResult where
  state : PTState
  closeOrders : List OrderRequest
  bracketUpdates : List (Nat × ℚ)
  booked : Bool

/-- `ProfitTrailing.book_profit` (src/profit_trailing.py lines 190-236):
calls `update_trailing_stop`; when the rule is one of
`dynamic`/`fixed_stop`/`lock_50` and the live price has crossed the stop
adversely, requests one forced ioc market order closing the full size
(`sell size` for a long, `buy abs(size)` for a short) and returns `True`;
when the rule is `partial_booking` it instead updates the position's bracket
stop-loss and returns `False`; otherwise it returns `False` with no
request.  A `(None, None, None)` result from `update_trailing_stop` (rule
`None`) matches none of the dispatch arms, so the code falls through to
`return False`. -/
def book_profit (st : PTState) (pos : Position) (live : ℚ) : BookResult :=
  let size := pos.sizeVal
  let r := update_trailing_stop st pos live
  match r.result with
  | none => ⟨r.state, [], [], false⟩
  | some (trailingStop, _, rule) =>
    if rule = Rule.dynamic ∨ rule = Rule.fixedStop ∨ rule = Rule.lock50 then
      if size > 0 ∧ live < trailingStop then
        ⟨r.state, [⟨"BTCUSD", Side.sell, size, "ioc", true⟩], [], true⟩
      else if size < 0 ∧ live > trailingStop then
        ⟨r.state, [⟨"BTCUSD", Side.buy, |size|, "ioc", true⟩], [], true⟩
      else ⟨r.state, [], [], false⟩
    else if rule = Rule.partialBooking then
      ⟨r.state, [], [(pos.id, trailingStop)], false⟩
    else ⟨r.state, [], [], false⟩

/-- The display tuple `track` builds per position to debounce logging
(src/profit_trailing.py lines 306-313). -/
structure Display where
  entry : Option ℚ
  live : ℚ
  profit : ℚ
  usd : ℚ
  rule : Option Rule
  sl : ℚ
deriving DecidableEq

/-- Everything one tick of `ProfitTrailing.track` produces: the engine state,
the display cache, the close orders requested and the ids of the positions
that were fully evaluated. -/
def TickOutcome :=
  PTState × (Nat → Option Display) × List OrderRequest × List Nat

/-- The per-position body of the tick loop in `ProfitTrailing.track`
(src/profit_trailing.py lines 284-323), position by position:

* a zero (or unparsable, hence `0.0`) size is skipped with `continue`;
* otherwise the profit figures, `update_trailing_stop` and the display
  tuple are computed;
* when the display changed, the informational record is emitted; its
  f-string formats `entry_val`, `profit_display`, `profit_usd` and
  `trailing_stop` with numeric format specifiers, and formatting `None`
  raises `TypeError`, which nothing in `track` catches — the whole loop
  aborts (`Except.error` carries the offending position id);
* otherwise `book_profit` runs and the loop moves on. -/
def track_tick_go (st : PTState) (lastDisplay : Nat → Option Display)
    (orders : List OrderRequest) (evaluated : List Nat) (live : ℚ) :
    List Position → Except Nat TickOutcome
  | [] => Except.ok (st, lastDisplay, orders, evaluated)
  | pos :: rest =>
    if pos.sizeVal = 0 then
      track_tick_go st lastDisplay orders evaluated live rest
    else
      let entryVal := pos.entry
      let profitDisplay := (compute_profit_pct pos live).map fun x => x * 100
      let profitUsd := (compute_raw_profit pos live).map fun x => x / 1000
      let r := update_trailing_stop st pos live
      let display : Display :=
        ⟨entryVal, live, round2 (profitDisplay.getD 0),
          round2 (profitUsd.getD 0), r.rule, round2 (r.stop.getD 0)⟩
      if lastDisplay pos.id = some display then
        let b := book_profit r.state pos live
        track_tick_go b.state lastDisplay (orders ++ b.closeOrders)
          (evaluated ++ [pos.id]) live rest
      else
        if entryVal.isSome ∧ profitDisplay.isSome ∧ profitUsd.isSome ∧
            r.stop.isSome then
          let ld := fun i => if i = pos.id then some display else lastDisplay i
          let b := book_profit r.state pos live
          track_tick_go b.state ld (orders ++ b.closeOrders)
            (evaluated ++ [pos.id]) live rest
        else Except.error pos.id

/-- One tick of `ProfitTrailing.track` over the cached open positions. -/
def track_tick (st : PTState) (lastDisplay : Nat → Option Display)
    (positions : List Position) (live : ℚ) : Except Nat TickOutcome :=
  track_tick_go st lastDisplay [] [] live positions

/-- The id whose log formatting aborted the tick, if any. -/
def tickErrorId : Except Nat TickOutcome → Option Nat
  | Except.error i => some i
  | Except.ok _ => none

/-- The ids of the positions a completed tick fully evaluated. -/
def tickEvaluatedIds : Except Nat TickOutcome → Option (List Nat)
  | Except.error _ => none
  | Except.ok out => some out.2.2.2

/-- A signal document as read from the Signal Bus: the nested
`last_signal.text` and `last_signal.price` fields and the two zone minima
(`supply_zone.min`, `demand_zone.min`), each `none` when absent
(src/signal_processor.py lines 80-87). -/
structure Signal where
  text : Option String
  price : Option ℚ
  supplyMin : Option ℚ
  demandMin : Option ℚ
deriving DecidableEq

/-- `SignalProcessor.signals_are_different` (src/signal_processor.py lines
245-251): a new signal differs from the previous one iff there is no
previous one or the `text` fields differ; no other field is consulted. -/
def signals_are_different (newSignal : Signal) (oldSignal : Option Signal) :
    Bool :=
  match oldSignal with
  | none => true
  | some o => newSignal.text ≠ o.text

/-- One iteration of `SignalProcessor.process_signals_loop`
(src/signal_processor.py lines 256-268): fetch a signal; when one is present
and differs from the last processed signal, invoke `process_signal` and
record it as the last signal.  Returns whether `process_signal` was invoked
and the new `last_signal`. -/
def loop_step (lastSignal : Option Signal) (fetched : Option Signal) :
    Bool × Option Signal :=
  match fetched with
  | some s =>
    if signals_are_different s lastSignal then (true, some s) else (false, lastSignal)
  | none => (false, lastSignal)

/-- The invocation flags of a run of the polling loop over a list of fetch
results, together with the final `last_signal`. -/
def loop_run (lastSignal : Option Signal) :
    List (Option Signal) → List Bool × Option Signal
  | [] => ([], lastSignal)
  | f :: fs =>
    let step := loop_step lastSignal f
    let rest := loop_run step.2 fs
    (step.1 :: rest.1, rest.2)

/-- `monitor_websocket`'s staleness test, `time.time() - last_update_time > 3`
(src/binance_ws.py line 62); `true` means this tick closes the socket and
starts a fresh subscription thread. -/
def staleCheck (now lastUpdate : ℚ) : Bool := now - lastUpdate > 3

/-- The number of reconnects `monitor_websocket` issues over its next `n`
one-second ticks when no price message arrives (`last_update_time` stays
fixed): each loop iteration sleeps one second and then applies the staleness
test (src/binance_ws.py lines 60-69). -/
def monitorReconnects (lastUpdate now : ℚ) : ℕ → ℕ
  | 0 => 0
  | n + 1 =>
    (if staleCheck (now + 1) lastUpdate then 1 else 0) +
      monitorReconnects lastUpdate (now + 1) n

/-- The entry order `process_signal` constructs: side, limit entry price,
bracket stop-loss and bracket take-profit (src/signal_processor.py lines
198-229). -/
structure EntryOrder where
  side : Side
  entryPrice : ℚ
  slPrice : ℚ
  tpPrice : ℚ
deriving DecidableEq

/-- The tail of `SignalProcessor.process_signal` for a directional signal
(src/signal_processor.py lines 187-229), after the resolved side and
reference price are known: the duplicate-guard (line 188: a pending order of
the new side aborts), the zone completeness gate (line 193: missing
`supply_zone.min` or `demand_zone.min` aborts), and the fixed-offset order
construction (lines 198-205: buy entry = price-50, stop = price-500, target
= price+3000; sell entry = price+50, stop = price+500, target =
price-3000).  Returns `none` when processing aborts with no entry order. -/
def process_signal_entry (newSide : Option Side) (pendingExists : Bool)
    (rawPrice : ℚ) (rawSupply rawDemand : Option ℚ) : Option EntryOrder :=
  if newSide.isSome ∧ pendingExists then none
  else if rawSupply = none ∨ rawDemand = none then none
  else
    match newSide with
    | some Side.buy =>
      some ⟨Side.buy, rawPrice - 50, rawPrice - 500, rawPrice + 3000⟩
    | some Side.sell =>
      some ⟨Side.sell, rawPrice + 50, rawPrice + 500, rawPrice - 3000⟩
    | none => none

/-- An open position as reported by the gateway to
`TradeManager.place_market_order`: the resolved product symbol and the
parsed size (`none` models `float(..)` raising, after which the code uses
`0.0`; src/trade_manager.py lines 90-97). -/
structure GwPosition where
  symbol : String
  size : Option ℚ
deriving DecidableEq

/-- An open order as reported by the gateway (only its side is consulted;
src/trade_manager.py line 112). -/
structure GwOrder where
  side : Side
deriving DecidableEq

/-- An entry of the local order cache `order_manager.orders`: the fields
`place_market_order` consults or writes (src/trade_manager.py lines
120-133 and 139-148). -/
structure LocalOrder where
  id : Nat
  side : Side
  status : String
  timestamp : ℤ
deriving DecidableEq

/-- Whether `needle` occurs as a contiguous run inside `hay`. -/
def strContainsAux (needle : List Char) : List Char → Bool
  | [] => needle.isEmpty
  | c :: cs => needle.isPrefixOf (c :: cs) || strContainsAux needle cs

/-- Python's `needle in hay` on strings. -/
def strContains (hay needle : String) : Bool :=
  strContainsAux needle.toList hay.toList

/-- Check 1 of `place_market_order` (src/trade_manager.py lines 88-103): some
reported position matches the symbol (substring test on the product symbol)
and is open on the same side (`size > 0` for buy, `size < 0` for sell). -/
def hasOpenSameSide (symbol : String) (side : Side)
    (ps : List GwPosition) : Bool :=
  ps.any fun p =>
    strContains p.symbol symbol &&
      match side with
      | Side.buy => p.size.getD 0 > 0
      | Side.sell => p.size.getD 0 < 0

/-- Check 2 of `place_market_order` (src/trade_manager.py lines 108-118):
some gateway open order has the same side. -/
def hasGwPendingSameSide (side : Side) (os : List GwOrder) : Bool :=
  os.any fun o => o.side = side

/-- The local orders surviving the stale purge of step 3 (src/trade_manager.py
lines 121-127): those placed within the last 60000 ms. -/
def freshOrders (now : ℤ) (cache : List LocalOrder) : List LocalOrder :=
  cache.filter fun o => ¬(now - o.timestamp > 60000)

/-- Check 4 of `place_market_order` (src/trade_manager.py lines 130-133):
some cached order has the same side and status `open` or `pending`. -/
def hasLocalPendingSameSide (side : Side) (cache : List LocalOrder) : Bool :=
  cache.any fun o => o.side = side && (o.status = "open" || o.status = "pending")

/-- The record `place_market_order` builds from the gateway's order-creation
response (src/trade_manager.py lines 138-147); the response's `status` and
`timestamp` defaults are used. -/
structure OrderInfo where
  id : Nat
  symbol : String
  side : Side
  amount : ℚ
  tif : String
  status : String
  timestamp : ℤ
deriving DecidableEq

/-- Result of `place_market_order`: the returned order record (`none` = the
call returned `None` and sent no order-creation request), whether an
order-creation request was sent to the gateway, and the local cache
afterwards. -/
structure PlaceResult where
  result : Option OrderInfo
  created : Bool
  cache : List LocalOrder

/-- The order-creation tail of `place_market_order` (src/trade_manager.py
lines 136-168): send the request, record the order locally and return the
record.  The post-placement position verification loop (lines 153-165) only
logs and is omitted. -/
def submitMarketOrder (symbol : String) (side : Side) (amount : ℚ)
    (tif : String) (cache : List LocalOrder) (now : ℤ) (newOrderId : Nat) :
    PlaceResult :=
  let info : OrderInfo := ⟨newOrderId, symbol, side, amount, tif, "open", now⟩
  ⟨some info, true, cache ++ [⟨newOrderId, side, "open", now⟩]⟩

/-- `TradeManager.place_market_order` (src/trade_manager.py lines 77-171).
The two gateway reads are passed in as `Except` values (`Except.error` = the
call raised; the code logs and continues with that check skipped), the local
cache and clock as explicit state, and the id the gateway assigns to a newly
created order as `newOrderId`.  With `force=False` the three guards run in
order and any hit returns `None` without sending a request; with
`force=True` all guards (and the stale purge) are bypassed and the request
is always sent. -/
def place_market_order (symbol : String) (side : Side) (amount : ℚ)
    (tif : String) (force : Bool)
    (gwPositions : Except Unit (List GwPosition))
    (gwOpenOrders : Except Unit (List GwOrder))
    (cache : List LocalOrder) (now : ℤ) (newOrderId : Nat) : PlaceResult :=
  if force then submitMarketOrder symbol side amount tif cache now newOrderId
  else
    let posBlock :=
      match gwPositions with
      | Except.ok ps => hasOpenSameSide symbol side ps
      | Except.error _ => false
    if posBlock then ⟨none, false, cache⟩
    else
      let ordBlock :=
        match gwOpenOrders with
        | Except.ok os => hasGwPendingSameSide side os
        | Except.error _ => false
      if ordBlock then ⟨none, false, cache⟩
      else
        let fresh := freshOrders now cache
        if hasLocalPendingSameSide side fresh then ⟨none, false, fresh⟩
        else submitMarketOrder symbol side amount tif fresh now newOrderId

/-- A long position used by several concrete checks. -/
def posLong : Position := ⟨1, some 50000, some 1⟩

/-- A state holding a stored trailing stop of 49500 for every id, as after a
first `fixed_stop` evaluation of `posLong`. -/
def stStored : PTState := ⟨fun _ => 0, fun _ => some 49500⟩

/-- Helper: the triple returned by `update_trailing_stop` is either `none`
(entry unparsable) or carries rule `fixed_stop` or `lock_50`. -/
theorem update_rule_shape (st : PTState) (pos : Position) (live : ℚ) :
    (update_trailing_stop st pos live).result = none ∨
    ∃ p, (update_trailing_stop st pos live).result = some p ∧
      (p.2.2 = Rule.fixedStop ∨ p.2.2 = Rule.lock50) := by
  rcases hpe : pos.entry with _ | e
  · left
    simp [update_trailing_stop, hpe]
  · right
    simp only [update_trailing_stop, hpe]
    split <;> split <;>
      first
        | exact ⟨_, rfl, Or.inr rfl⟩
        | exact ⟨_, rfl, Or.inl rfl⟩

/-- Helper: mapping preserves `isSome`. -/
theorem isSome_map {α β : Type} (f : α → β) (x : Option α) :
    (x.map f).isSome = x.isSome := by
  cases x <;> rfl

/-- C1: one successful evaluation of `update_trailing_stop` with a stored
trailing stop `s` for the position's id returns a stop `t` which is also the
newly stored stop, with `s ≤ t` for a long position (`size > 0`) and `t ≤ s`
for a short one (`size < 0`).  Since every successful evaluation stores
exactly the stop it returns and a failed evaluation leaves the state alone,
this is precisely monotonicity of the returned stop across any sequence of
calls for a fixed id with the side held fixed. -/
theorem c1_trailing_stop_monotone (st : PTState) (pos : Position) (live e s : ℚ)
    (he : pos.entry = some e) (hs : st.trailStop pos.id = some s) :
    ∃ t, (update_trailing_stop st pos live).stop = some t ∧
      (update_trailing_stop st pos live).state.trailStop pos.id = some t ∧
      (0 < pos.sizeVal → s ≤ t) ∧ (pos.sizeVal < 0 → t ≤ s) := by
  simp only [update_trailing_stop, he, hs, UpdateResult.stop]
  split_ifs
  all_goals refine ⟨_, rfl, by simp, fun hl => ?_, fun hsh => ?_⟩
  all_goals
    first
      | exact le_max_left _ _
      | exact min_le_left _ _
      | linarith

/-- Witness for C1 at the concrete input `posLong`, stored stop 49500,
live price 50200. -/
theorem c1_trailing_stop_monotone_witness :
    ∃ t, (update_trailing_stop stStored posLong 50200).stop = some t ∧
      (update_trailing_stop stStored posLong 50200).state.trailStop posLong.id
        = some t ∧
      (0 < posLong.sizeVal → 49500 ≤ t) ∧ (posLong.sizeVal < 0 → t ≤ 49500) :=
  c1_trailing_stop_monotone stStored posLong 50200 50000 49500 rfl rfl

/-- C2 counterexample: the purge performed when a refresh sees no open
positions clears only `position_trailing_stop`; `position_max_profit`
survives it.  Concretely: evaluate `posLong` at 51100 (excursion 1100),
purge, then evaluate at 50100.  A fresh id would give `fixed_stop` with stop
49500, but the re-entry evaluation still sees excursion 1100 and returns
`lock_50` with stop 50550. -/
theorem c2_purge_counterexample :
    (update_trailing_stop
        (clearTrailing (update_trailing_stop initState posLong 51100).state)
        posLong 50100).result = some (50550, 11 / 500, Rule.lock50) ∧
    (update_trailing_stop initState posLong 50100).result
      = some (49500, 1 / 500, Rule.fixedStop) ∧
    (clearTrailing (update_trailing_stop initState posLong 51100).state).maxProfit
        posLong.id = 1100 := by
  refine ⟨?_, ?_, ?_⟩ <;>
  · simp only [update_trailing_stop, clearTrailing, initState, posLong,
      Position.sizeVal, Option.getD]
    norm_num

/-- C2 amended: when a refresh observes no open positions, the trailing-stop
cache is fully purged, but the accrued maximum-favorable-excursion record is
left untouched, so a position re-entering under the same id resumes with its
previously accrued excursion. -/
theorem c2_purge_clears_only_trailing (st : PTState) (i : Nat) :
    (clearTrailing st).trailStop i = none ∧
    (clearTrailing st).maxProfit i = st.maxProfit i :=
  ⟨rfl, rfl⟩

/-- C3: the two rule-selection examples from the spec, long side, fresh state.
At live 51100 the excursion 1100 exceeds 1000 with positive profit, giving
`lock_50` and stop `50550`; fresh at live 50200 the excursion is 200,
giving `fixed_stop` and stop `49500`. -/
theorem c3_rule_selection :
    (update_trailing_stop initState ⟨1, some 50000, some 1⟩ 51100).result
      = some (50550, 11 / 500, Rule.lock50) ∧
    (update_trailing_stop initState ⟨1, some 50000, some 1⟩ 50200).result
      = some (49500, 1 / 250, Rule.fixedStop) := by
  constructor <;>
  · simp only [update_trailing_stop, initState, Position.sizeVal, Option.getD]
    norm_num

/-- C4: whenever `update_trailing_stop` returns a triple (its rule is then
`fixed_stop` or `lock_50`), `book_profit` behaves as specified: if the live
price has crossed the stop adversely it requests exactly one forced ioc
market close of the full remaining size and returns `True`; if the stop has
not been crossed it requests nothing. -/
theorem c4_forced_close (st : PTState) (pos : Position) (live ts ratio : ℚ)
    (rule : Rule)
    (hres : (update_trailing_stop st pos live).result = some (ts, ratio, rule)) :
    (0 < pos.sizeVal → live < ts →
      (book_profit st pos live).closeOrders
          = [⟨"BTCUSD", Side.sell, pos.sizeVal, "ioc", true⟩] ∧
        (book_profit st pos live).booked = true) ∧
    (pos.sizeVal < 0 → ts < live →
      (book_profit st pos live).closeOrders
          = [⟨"BTCUSD", Side.buy, -pos.sizeVal, "ioc", true⟩] ∧
        (book_profit st pos live).booked = true) ∧
    ((0 < pos.sizeVal → ts ≤ live) → (pos.sizeVal < 0 → live ≤ ts) →
      (book_profit st pos live).closeOrders = [] ∧
        (book_profit st pos live).booked = false) := by
  have hrule : rule = Rule.fixedStop ∨ rule = Rule.lock50 := by
    rcases update_rule_shape st pos live with h | ⟨p, hp, hr⟩
    · rw [hres] at h
      exact absurd h (by simp)
    · rw [hres] at hp
      obtain rfl : p = (ts, ratio, rule) := (Option.some.inj hp).symm
      exact hr
  have hdisp : (rule = Rule.dynamic ∨ rule = Rule.fixedStop ∨ rule = Rule.lock50)
      = True := by
    rcases hrule with h | h <;> simp [h]
  refine ⟨fun hl hc => ?_, fun hs hc => ?_, fun h1 h2 => ?_⟩ <;>
    simp only [book_profit, hres, hdisp, if_true, abs_of_neg, neg_neg]
  · rw [if_pos ⟨hl, hc⟩]
    exact ⟨rfl, rfl⟩
  · rw [if_neg (by rintro ⟨h', _⟩; linarith), if_pos ⟨hs, hc⟩]
    constructor
    · simp [abs_of_neg hs]
    · rfl
  · rw [if_neg (by rintro ⟨h', hc⟩; exact absurd (h1 h') (not_le.mpr hc)),
      if_neg (by rintro ⟨h', hc⟩; exact absurd (h2 h') (not_le.mpr hc))]
    exact ⟨rfl, rfl⟩

/-- Witness for C4: long position `posLong` from the fresh state at live
price 49400; the fixed stop 49500 has been crossed. -/
theorem c4_forced_close_witness :
    (0 < posLong.sizeVal → (49400 : ℚ) < 49500 →
      (book_profit initState posLong 49400).closeOrders
          = [⟨"BTCUSD", Side.sell, posLong.sizeVal, "ioc", true⟩] ∧
        (book_profit initState posLong 49400).booked = true) ∧
    (posLong.sizeVal < 0 → (49500 : ℚ) < 49400 →
      (book_profit initState posLong 49400).closeOrders
          = [⟨"BTCUSD", Side.buy, -posLong.sizeVal, "ioc", true⟩] ∧
        (book_profit initState posLong 49400).booked = true) ∧
    ((0 < posLong.sizeVal → (49500 : ℚ) ≤ 49400) →
      (posLong.sizeVal < 0 → (49400 : ℚ) ≤ 49500) →
      (book_profit initState posLong 49400).closeOrders = [] ∧
        (book_profit initState posLong 49400).booked = false) :=
  c4_forced_close initState posLong 49400 49500 (-(3 / 250)) Rule.fixedStop
    (by simp only [update_trailing_stop, initState, posLong, Position.sizeVal,
          Option.getD]
        norm_num)

/-- C5: signal deduplication is by text content only.  A fetched signal whose
text equals the last processed signal's text is a no-op even when its price
or zone fields differ (the conclusion holds for all `s`, constrained only on
`text`), and from a fresh loop two consecutive identical-text signals yield
exactly one invocation of `process_signal`. -/
theorem c5_dedup_by_text (l s s1 s2 : Signal)
    (hst : s.text = l.text) (h12 : s1.text = s2.text) :
    loop_step (some l) (some s) = (false, some l) ∧
    (loop_run none [some s1, some s2]).1 = [true, false] := by
  constructor
  · simp [loop_step, signals_are_different, hst]
  · simp [loop_run, loop_step, signals_are_different, h12]

/-- Witness for C5: two signals with the same text but different price and
zone fields. -/
theorem c5_dedup_by_text_witness :
    loop_step (some ⟨some "buy signal", some 50000, some 1, some 2⟩)
        (some ⟨some "buy signal", some 51000, some 3, some 4⟩)
      = (false, some ⟨some "buy signal", some 50000, some 1, some 2⟩) ∧
    (loop_run none [some ⟨some "buy signal", some 51000, some 3, some 4⟩,
        some ⟨some "buy signal", some 52000, none, none⟩]).1 = [true, false] :=
  c5_dedup_by_text ⟨some "buy signal", some 50000, some 1, some 2⟩
    ⟨some "buy signal", some 51000, some 3, some 4⟩
    ⟨some "buy signal", some 51000, some 3, some 4⟩
    ⟨some "buy signal", some 52000, none, none⟩ rfl rfl

/-- C6 (code bug): a position whose entry price fails to parse does not get
skipped — the first changed-display log formats `None` with a numeric format
specifier, the resulting `TypeError` propagates, and the tick loop aborts
before every later position, never reaching the good position with id 2.  A
position whose size fails to parse (treated as `0.0`) is skipped as the
claim states and the rest of the tick proceeds. -/
theorem c6_entry_parse_aborts_tick :
    tickErrorId (track_tick initState (fun _ => none)
      [⟨1, none, some 1⟩, ⟨2, some 50000, some 1⟩] 50100) = some 1 ∧
    tickEvaluatedIds (track_tick initState (fun _ => none)
      [⟨1, none, some 1⟩, ⟨2, some 50000, some 1⟩] 50100) = none ∧
    tickEvaluatedIds (track_tick initState (fun _ => none)
      [⟨3, some 50000, none⟩, ⟨2, some 50000, some 1⟩] 50100) = some [2] := by
  refine ⟨?_, ?_, ?_⟩ <;>
  · simp only [track_tick, track_tick_go, Position.sizeVal, Option.getD_some,
      Option.getD_none, compute_profit_pct, compute_raw_profit,
      update_trailing_stop, UpdateResult.stop, reduceCtorEq, isSome_map,
      apply_ite UpdateResult.result, apply_ite Option.isSome,
      Option.isSome_none, Option.isSome_some, ite_self, one_ne_zero,
      eq_self_iff_true, if_true, if_false, false_and, true_and, and_self,
      Bool.false_eq_true, tickErrorId, tickEvaluatedIds, List.nil_append]
    try norm_num

/-- C7 counterexample: with the last message at time 0 and the watchdog
started at time 0, a 6-second stale period yields three reconnects (at ticks
4, 5 and 6), not exactly one. -/
theorem c7_reconnect_counterexample :
    monitorReconnects 0 0 6 = 3 ∧ monitorReconnects 0 0 6 ≠ 1 := by
  have h : monitorReconnects 0 0 6 = 3 := by
    simp only [monitorReconnects, staleCheck]
    norm_num
  exact ⟨h, by rw [h]; norm_num⟩

/-- C7 amended: once more than 3 seconds have elapsed since the last valid
price message, the watchdog triggers the close-and-restart on every
subsequent 1-second tick for as long as no message arrives — at least once
per stale period, not exactly once. -/
theorem c7_reconnect_every_stale_tick (lastUpdate now : ℚ) (n : ℕ)
    (h : now - lastUpdate > 3) :
    monitorReconnects lastUpdate now n = n := by
  induction n generalizing now with
  | zero => rfl
  | succ m ih =>
    have h1 : staleCheck (now + 1) lastUpdate = true := by
      simp only [staleCheck, decide_eq_true_eq]
      linarith
    simp only [monitorReconnects, h1, if_true]
    rw [ih (now + 1) (by linarith)]
    omega

/-- Witness for C7 amended: watchdog already 4 seconds stale, five ticks,
five reconnects. -/
theorem c7_reconnect_every_stale_tick_witness :
    monitorReconnects 0 4 5 = 5 :=
  c7_reconnect_every_stale_tick 0 4 5 (by norm_num)

/-- C8: for a directional signal that survives the duplicate-guard, a missing
supply-zone or demand-zone minimum aborts processing with no entry order;
with both present the placed order uses fixed absolute offsets from the
reference price and is independent of the zone values (`zs` and `zd` are
arbitrary and absent from the result). -/
theorem c8_entry_construction (s : Side) (p zs zd : ℚ)
    (supply demand : Option ℚ) (habs : supply = none ∨ demand = none) :
    process_signal_entry (some s) false p supply demand = none ∧
    process_signal_entry (some s) false p (some zs) (some zd) =
      some (match s with
        | Side.buy => ⟨Side.buy, p - 50, p - 500, p + 3000⟩
        | Side.sell => ⟨Side.sell, p + 50, p + 500, p - 3000⟩) := by
  constructor
  · simp [process_signal_entry, habs]
  · cases s <;> simp [process_signal_entry]

/-- Witness for C8: a buy signal at reference price 50000 with the supply
minimum missing, and the same signal with both zones present. -/
theorem c8_entry_construction_witness :
    process_signal_entry (some Side.buy) false 50000 none (some 40000)
      = none ∧
    process_signal_entry (some Side.buy) false 50000 (some 60000) (some 40000)
      = some ⟨Side.buy, 50000 - 50, 50000 - 500, 50000 + 3000⟩ :=
  c8_entry_construction Side.buy 50000 60000 40000 none (some 40000)
    (Or.inl rfl)

/-- C9: the points-based evaluation path never selects `partial_booking`:
`update_trailing_stop` always returns rule `fixed_stop`, rule `lock_50` or
the `None` triple, and consequently `book_profit` never reaches its
bracket-updating `partial_booking` branch. -/
theorem c9_no_partial_booking (st : PTState) (pos : Position) (live : ℚ) :
    ((update_trailing_stop st pos live).rule = some Rule.fixedStop ∨
      (update_trailing_stop st pos live).rule = some Rule.lock50 ∨
      (update_trailing_stop st pos live).rule = none) ∧
    (book_profit st pos live).bracketUpdates = [] := by
  rcases update_rule_shape st pos live with h | ⟨p, hp, hr⟩
  · refine ⟨Or.inr (Or.inr ?_), ?_⟩
    · simp [UpdateResult.rule, h]
    · simp only [book_profit, h]
  · obtain ⟨ts, ratio, rule⟩ := p
    refine ⟨?_, ?_⟩
    · rcases hr with h | h <;> simp only at h <;> subst h
      · exact Or.inl (by simp [UpdateResult.rule, hp])
      · exact Or.inr (Or.inl (by simp [UpdateResult.rule, hp]))
    · rcases hr with h | h <;> simp only at h <;> subst h <;>
        simp only [book_profit, hp] <;>
        rw [if_pos (by simp)] <;>
        split_ifs <;> rfl

/-- C10: with `force=False`, an open same-side position at the gateway, a
same-side pending order at the gateway, or a same-side open/pending order in
the non-stale local cache each make `place_market_order` return `None`
without sending an order-creation request; with `force=True` every guard is
bypassed and the request is always sent, whatever the gateway reports. -/
theorem c10_market_order_guards (symbol : String) (side : Side) (amount : ℚ)
    (tif : String) (ps : List GwPosition) (os : List GwOrder)
    (cache : List LocalOrder) (now : ℤ) (newOrderId : Nat)
    (hb : hasOpenSameSide symbol side ps = true ∨
      hasGwPendingSameSide side os = true ∨
      hasLocalPendingSameSide side (freshOrders now cache) = true) :
    ((place_market_order symbol side amount tif false (Except.ok ps)
        (Except.ok os) cache now newOrderId).result = none ∧
      (place_market_order symbol side amount tif false (Except.ok ps)
        (Except.ok os) cache now newOrderId).created = false) ∧
    ∀ (gp : Except Unit (List GwPosition)) (go : Except Unit (List GwOrder)),
      (place_market_order symbol side amount tif true gp go cache now
          newOrderId).result
        = some ⟨newOrderId, symbol, side, amount, tif, "open", now⟩ ∧
      (place_market_order symbol side amount tif true gp go cache now
          newOrderId).created = true := by
  constructor
  · by_cases h1 : hasOpenSameSide symbol side ps = true
    · simp [place_market_order, h1]
    · by_cases h2 : hasGwPendingSameSide side os = true
      · simp [place_market_order, h2]
      · have h3 : hasLocalPendingSameSide side (freshOrders now cache) = true := by
          rcases hb with h | h | h
          · exact absurd h h1
          · exact absurd h h2
          · exact h
        simp [place_market_order, h1, h2, h3]
  · intro gp go
    simp [place_market_order, submitMarketOrder]

/-- Witness for C10: a buy order for BTCUSD while the gateway reports an open
long BTCUSD position of size 2. -/
theorem c10_market_order_guards_witness :
    ((place_market_order "BTCUSD" Side.buy 1 "ioc" false
        (Except.ok [⟨"BTCUSD", some 2⟩]) (Except.ok []) [] 0 7).result = none ∧
      (place_market_order "BTCUSD" Side.buy 1 "ioc" false
        (Except.ok [⟨"BTCUSD", some 2⟩]) (Except.ok []) [] 0 7).created
        = false) ∧
    ∀ (gp : Except Unit (List GwPosition)) (go : Except Unit (List GwOrder)),
      (place_market_order "BTCUSD" Side.buy 1 "ioc" true gp go [] 0 7).result
        = some ⟨7, "BTCUSD", Side.buy, 1, "ioc", "open", 0⟩ ∧
      (place_market_order "BTCUSD" Side.buy 1 "ioc" true gp go [] 0 7).created
        = true :=
  c10_market_order_guards "BTCUSD" Side.buy 1 "ioc"
    [⟨"BTCUSD", some 2⟩] [] [] 0 7
    (Or.inl (by norm_num [hasOpenSameSide, strContains, strContainsAux,
      List.isPrefixOf, List.any]))

end DeltaBot
